import Mathlib

/-!
Shallow embedding of the OSF-to-PDF export pipeline (pdf_generator.py) and
proofs about the claims of its specification.

Modelling conventions:
- The remote OSF API is a value of the structure Api: each endpoint that the
  code queries with requests.get is a field returning either the parsed
  payload (Except.ok) or a fetch failure (Except.error message), the latter
  standing for a raised requests exception (raise_for_status or network
  error).
- Every HTTP GET issued by the code is recorded as a Request value (url and
  the headers argument passed to requests.get); functions that fetch return
  the trace of requests they issued, in issue order, truncated at the first
  raised exception, alongside their result.
- reportlab flowables appended to the story are modelled by the inductive
  Block; Paragraph markup strings are kept verbatim.
- Python floats are modelled as exact rationals; round(x, 2) is modelled as
  round-half-to-even at two decimals, which is what CPython computes on the
  dyadic values arising here.
- Python truthiness on strings and lists (if token, if content, if files)
  is modelled as a non-emptiness test; an absent JSON key is an Option that
  is none.
-/

/-- A value stored in a Python headers dict built by get_headers:
either the string formed by "Bearer " and a token (line 59 of
pdf_generator.py), or the empty dict literal appearing at line 61. -/
inductive HeaderVal where
  | bearer (token : String)
  | emptyDict
deriving DecidableEq, Repr

abbrev Headers := List (String × HeaderVal)

/-- One HTTP GET issued via requests.get: the url and the headers argument
(none models Python None, i.e. no extra headers sent). -/
structure Request where
  url : String
  headers : Option Headers
deriving DecidableEq, Repr

/-- A table cell: reportlab receives either a string or a (float) number. -/
inductive Cell where
  | str (s : String)
  | num (q : ℚ)
deriving DecidableEq, Repr

/-- A flowable appended to the reportlab story: Paragraph with a heading
style, Paragraph with the Normal style, Table, Spacer, or an Image (the QR
code; the field records the url the QR code encodes). -/
inductive Block where
  | heading (level : Nat) (text : String)
  | para (text : String)
  | table (rows : List (List Cell))
  | spacer
  | image (qrUrl : String)
deriving DecidableEq, Repr

/-- A flattened file record as built by fetch_files: name (the synthesized
root-relative path), size in MB (rounded), download link. -/
structure FileEntry where
  name : String
  size : ℚ
  link : String
deriving DecidableEq, Repr

/-- One entry of a storage listing endpoint (attributes.kind is file or
folder). A folder carries the href of its related files listing and the
entries that a GET of that href returns; folderErr stands for a folder
whose related-listing GET raises (raise_for_status), carrying the message
of the exception. -/
inductive Entry where
  | file (name : String) (size : Option Nat) (link : String)
  | folder (name : String) (href : String) (children : List Entry)
  | folderErr (name : String) (href : String) (msg : String)

/-- The attributes object of a project metadata record; none models an
absent JSON key (the code reads each one with .get and a default). -/
structure Attributes where
  title : Option String
  description : Option String
  date_created : Option String
  date_modified : Option String
  category : Option String
  public : Option Bool
  registered : Option Bool
  tags : Option (List String)
  current_user_permissions : Option (List String)
  doi : Option String
deriving DecidableEq, Repr

/-- A project metadata record: its attributes and the names of the
affiliated institutions found under embeds (empty list when the embed is
absent). -/
structure Metadata where
  attributes : Attributes
  institutions : List String
deriving DecidableEq, Repr

/-- One contributor record, with the embedded user fields the code reads. -/
structure Contributor where
  full_name : String
  bibliographic : Option Bool
  email : Option String
deriving DecidableEq, Repr

/-- One child node record as read by the components loop of build_pdf. -/
structure Component where
  id : String
  title : String
  html : String
deriving DecidableEq, Repr

/-- One wiki page record: its id and its display name (attributes.name,
absent modelled as none). -/
structure WikiPage where
  id : String
  name : Option String
deriving DecidableEq, Repr

/-- The remote OSF API, one field per endpoint family the code queries.
Each field returns the parsed payload or a fetch failure. -/
structure Api where
  project : String → Except String Metadata
  contributors : String → Except String (List Contributor)
  children : String → Except String (List Component)
  files : String → Except String (List Entry)
  wikis : String → Except String (List WikiPage)
  wikiContent : String → Except String String

/-- The page-decoration callbacks a reportlab document could be built with
(onFirstPage / onLaterPages drawing a footer). -/
structure PageDecoration where
  leftText : String
  rightText : String
  centerImage : String
deriving DecidableEq, Repr

/-- The finalized document: output path, page size, the story flowables,
and the page-decoration callback attached at build time.
SimpleDocTemplate.build called with only the story (line 329) leaves the
default do-nothing page callbacks, modelled as pageDecor = none. -/
structure BuiltDoc where
  path : Option String
  pagesize : String
  story : List Block
  pageDecor : Option PageDecoration
deriving DecidableEq, Repr

/-- BASE_URL constant, line 51. -/
def BASE_URL : String := "https://api.osf.io/v2/nodes/"

/-- Module-level global HEADERS, line 55: initialized to None. The later
assignments spelled HEADERS inside get_headers (line 59/61) and build_pdf
(line 277) are function-local in Python, because neither function declares
global HEADERS; so the module global read by every fetch function stays
None for the whole program run. -/
def HEADERS : Option Headers := none

/-- Python truthiness of the token values handled by build_pdf: None and
the empty string are falsy. -/
def tokenFalsy : Option String → Bool
  | none => true
  | some t => t == ""

/-- get_headers, lines 57-62. osfToken is the OSF_TOKEN environment value
read at import (line 49). The chained assignment also binds a local name
HEADERS, which does not escape the function, so only the returned dict is
an effect. For a Private project the dict maps Authorization to the string
Bearer plus the module token; otherwise to an empty dict literal. -/
def get_headers (project_type : Option String) (osfToken : String) : Headers :=
  if project_type = some "Private" then [("Authorization", HeaderVal.bearer osfToken)]
  else [("Authorization", HeaderVal.emptyDict)]

/-- fetch_project_metadata, lines 65-68: one GET with the module-global
HEADERS, returning the parsed data payload or the raised error. -/
def fetch_project_metadata (api : Api) (project_id : String) :
    Request × Except String Metadata :=
  ({ url := BASE_URL ++ project_id ++ "/?embed=affiliated_institutions",
     headers := HEADERS },
   api.project project_id)

/-- fetch_contributors, lines 70-73. -/
def fetch_contributors (api : Api) (project_id : String) :
    Request × Except String (List Contributor) :=
  ({ url := BASE_URL ++ project_id ++ "/contributors/?embed=users",
     headers := HEADERS },
   api.contributors project_id)

/-- fetch_components, lines 75-78. -/
def fetch_components (api : Api) (project_id : String) :
    Request × Except String (List Component) :=
  ({ url := BASE_URL ++ project_id ++ "/children/", headers := HEADERS },
   api.children project_id)

/-- Round-half-to-even to an integer, as CPython round computes on the
exactly representable dyadic values produced by the size conversion. -/
def pyRoundHalfEven (q : ℚ) : ℤ :=
  if q - ⌊q⌋ = 1 / 2 then 2 * round (q / 2) else round q

/-- Python round(x, 2). -/
def pyRound2 (q : ℚ) : ℚ := (pyRoundHalfEven (q * 100) : ℚ) / 100

/-- Lines 129-131 and 134 of fetch_files: size_bytes is the size attribute
or 0 (null and 0 both give 0), converted to MB by dividing by 1024 squared
and rounded to 2 decimals. -/
def round_size_mb (size : Option Nat) : ℚ :=
  pyRound2 ((size.getD 0 : ℚ) / (1024 ^ 2 : ℚ))

/-- Line 126 of fetch_files: the f-string joining prefix and name when the
prefix is truthy (non-empty), else the bare name. -/
def full_path (p name : String) : String :=
  if p ≠ "" then p ++ "/" ++ name else name

/-- The inner traverse_files of fetch_files, lines 117-139, started on a
list of already fetched entries: walks the entries in order; a file
appends one FileEntry with a forced leading slash; a folder issues a GET
of its related href (recorded in the request trace) and recurses with the
extended prefix. Returns the issued requests in order, cut at the first
raised exception, and the collected files or the error. -/
def traverse_files : List Entry → String → List Request × Except String (List FileEntry)
  | [], _ => ([], Except.ok [])
  | Entry.file name size link :: rest, p =>
      let fp := full_path p name
      let (tr, res) := traverse_files rest p
      (tr, res.map fun fs =>
        { name := "/" ++ fp, size := round_size_mb size, link := link } :: fs)
  | Entry.folder name href children :: rest, p =>
      let req : Request := { url := href, headers := HEADERS }
      match traverse_files children (full_path p name) with
      | (trc, Except.ok fs1) =>
          let (trr, res) := traverse_files rest p
          (req :: (trc ++ trr), res.map fun fs2 => fs1 ++ fs2)
      | (trc, Except.error e) => (req :: trc, Except.error e)
  | Entry.folderErr _ href msg :: _, _ =>
      ([{ url := href, headers := HEADERS }], Except.error msg)

/-- fetch_files, lines 113-142: GET the root listing of the storage
provider, then run traverse_files over its entries with the empty prefix. -/
def fetch_files (api : Api) (component_id : String) (storage_provider : String) :
    List Request × Except String (List FileEntry) :=
  let files_api := BASE_URL ++ component_id ++ "/files/" ++ storage_provider ++ "/"
  let req : Request := { url := files_api, headers := HEADERS }
  match api.files component_id with
  | Except.error e => ([req], Except.error e)
  | Except.ok entries =>
      (req :: (traverse_files entries "").1, (traverse_files entries "").2)

/-- fetch_wiki_pages, lines 145-148. -/
def fetch_wiki_pages (api : Api) (project_id : String) :
    Request × Except String (List WikiPage) :=
  ({ url := BASE_URL ++ project_id ++ "/wikis/", headers := HEADERS },
   api.wikis project_id)

/-- fetch_wiki_content_by_id, lines 150-157: the GET is attempted, and any
raised exception is caught inside the function, which then returns None;
on success the raw response text is returned. -/
def fetch_wiki_content_by_id (api : Api) (page_id : String) :
    Request × Option String :=
  ({ url := "https://api.osf.io/v2/wikis/" ++ page_id ++ "/content/",
     headers := HEADERS },
   match api.wikiContent page_id with
   | Except.ok t => some t
   | Except.error _ => none)

/-- The replace of newline by the br tag applied to wiki ids and content. -/
def nl_to_br (s : String) : String := s.replace "\n" "<br/>"

/-- Python str() of a list of strings, as the f-string at line 183 renders
the tags and permissions lists. -/
def pyStrList (l : List String) : String :=
  "[" ++ String.intercalate ", " (l.map fun s => "\x27" ++ s ++ "\x27") ++ "]"

/-- The meta_fields list of render_metadata_section, lines 169-181: label
and rendered value for the 11 fixed fields, each read with .get and its
default. -/
def meta_fields (m : Metadata) (timestamp : String) : List (String × String) :=
  [("Title", m.attributes.title.getD "N/A"),
   ("Description", m.attributes.description.getD "No description provided"),
   ("Date Created", (m.attributes.date_created.getD "N/A").take 10),
   ("Last Modified", (m.attributes.date_modified.getD "N/A").take 10),
   ("Category", m.attributes.category.getD "N/A"),
   ("Public?", if m.attributes.public.getD false then "Yes" else "No"),
   ("Registration?", if m.attributes.registered.getD false then "Yes" else "No"),
   ("Tags", match m.attributes.tags with
            | some l => pyStrList l
            | none => "N/A"),
   ("Current Permissions", match m.attributes.current_user_permissions with
            | some l => pyStrList l
            | none => "N/A"),
   ("DOI", m.attributes.doi.getD "N/A"),
   ("Exported At", timestamp)]

/-- render_metadata_section, lines 167-188: the heading, one labelled
Paragraph per meta_fields entry in order, the institutions line, and a
Spacer. Returns the blocks it appends to the story. -/
def render_metadata_section (m : Metadata) (timestamp : String) : List Block :=
  Block.heading 2 "1. Project Metadata"
    :: (meta_fields m timestamp).map
        (fun lv => Block.para ("<b>" ++ lv.1 ++ ":</b> " ++ lv.2))
    ++ [Block.para ("<b>Affiliated Institution(s):</b> " ++
          (if m.institutions ≠ [] then String.intercalate ", " m.institutions
           else "None listed")),
        Block.spacer]

/-- One contributor row of the table at lines 197-201. -/
def contributor_row (c : Contributor) : List Cell :=
  [Cell.str c.full_name,
   Cell.str (if c.bibliographic.getD false then "Yes" else "No"),
   Cell.str (c.email.getD "N/A")]

/-- render_contributors_section, lines 190-210. -/
def render_contributors_section (contributors : List Contributor) : List Block :=
  Block.heading 2 "2. Contributors"
    :: (if contributors = [] then [Block.para "No contributors found."]
        else [Block.table
                ([Cell.str "Name", Cell.str "Bibliographic?",
                  Cell.str "Email (if available)"]
                  :: contributors.map contributor_row),
              Block.spacer])

/-- One file row of the table at lines 223-224: the size cell is the
number when truthy (non-zero) and the string N/A otherwise. -/
def file_row (f : FileEntry) : List Cell :=
  [Cell.str f.name,
   if f.size ≠ 0 then Cell.num f.size else Cell.str "N/A",
   Cell.str f.link]

/-- render_file_table, lines 212-247: optional custom heading; on an empty
list the no-files line is emitted and the function returns (so the fixed
heading is not reached); otherwise the fixed heading, the table, and a
Spacer. The second emptiness check of lines 219-221 is kept although it is
unreachable. -/
def render_file_table (files : List FileEntry) (heading : Option String) : List Block :=
  (match heading with
   | some h => [Block.heading 2 h]
   | none => [])
  ++ if files = [] then [Block.para "3. No files available."]
     else
       Block.heading 2 "3. Files OSF Storage"
         :: if files = [] then [Block.para "3. No files available."]
            else [Block.table
                    ([Cell.str "File Name", Cell.str "Size \n(MB)",
                      Cell.str "Download Link"]
                      :: files.map file_row),
                  Block.spacer]

/-- Lines 264-267 of render_wiki_section: the content paragraph when the
fetched content is truthy (present and non-empty), else the fixed
fallback line. -/
def wiki_content_block : Option String → Block
  | some c =>
      if c ≠ "" then Block.para (nl_to_br c)
      else Block.para "No content returned or unauthorized access"
  | none => Block.para "No content returned or unauthorized access"

/-- The body of the per-page loop of render_wiki_section, lines 256-268:
the raw page id (debug artifact), the content fetch, the title heading,
the content paragraph or the fixed fallback line, and a Spacer. Returns
the requests issued and the blocks appended. -/
def render_wiki_page (api : Api) (page : WikiPage) : List Request × List Block :=
  ([(fetch_wiki_content_by_id api page.id).1],
   [Block.para (nl_to_br page.id),
    Block.heading 3 (page.name.getD "Untitled"),
    wiki_content_block (fetch_wiki_content_by_id api page.id).2,
    Block.spacer])

/-- render_wiki_section, lines 249-271: heading, then the wiki list fetch
inside a try block; a raised fetch failure is caught and rendered as an
Error heading plus a diagnostic paragraph; an empty list renders the
no-pages line; otherwise every page is rendered by render_wiki_page. -/
def render_wiki_section (api : Api) (project_id : String) :
    List Request × List Block :=
  let hd := Block.heading 2 "4. Wiki"
  let req := (fetch_wiki_pages api project_id).1
  match (fetch_wiki_pages api project_id).2 with
  | Except.error e =>
      ([req], [hd, Block.heading 3 "Error",
               Block.para ("Could not fetch wiki: " ++ e)])
  | Except.ok [] => ([req], [hd, Block.para "No wiki pages found."])
  | Except.ok pages =>
      (req :: pages.flatMap (fun p => (render_wiki_page api p).1),
       hd :: pages.flatMap (fun p => (render_wiki_page api p).2))

/-- The components loop of build_pdf, lines 321-327: for each child, its
title, its URL line, and its file table (no custom heading); a file-tree
fetch failure here is not caught and aborts the export. -/
def render_components (api : Api) : List Component → List Request × Except String (List Block)
  | [] => ([], Except.ok [])
  | c :: rest =>
      match (fetch_files api c.id "osfstorage").2 with
      | Except.error e => ((fetch_files api c.id "osfstorage").1, Except.error e)
      | Except.ok fs =>
          let blocks := Block.heading 3 c.title
            :: Block.para ("Component URL: <a href=\x27" ++ c.html ++ "\x27>"
                 ++ c.html ++ "</a>")
            :: render_file_table fs none
          ((fetch_files api c.id "osfstorage").1 ++ (render_components api rest).1,
           (render_components api rest).2.map fun bs => blocks ++ bs)

/-- The canonical project URL selected by the isTest flag, lines 291-294. -/
def project_url (isTest : Bool) (project_id : String) : String :=
  if isTest then "https://test.osf.io/" ++ project_id ++ "/"
  else "https://osf.io/" ++ project_id ++ "/"

/-- The cover block of build_pdf, lines 307-311: title, linked project
URL, QR code image, Spacer. -/
def cover_blocks (title purl : String) : List Block :=
  [Block.heading 1 title,
   Block.para ("Project URL: <a href=\x27" ++ purl ++ "\x27>" ++ purl ++ "</a>"),
   Block.image purl,
   Block.spacer]

/-- build_pdf, lines 275-330. envToken is the OSF_TOKEN environment value
(read at import, line 49, and re-read after load_dotenv at line 284); now
is the timestamp datetime.now produces at line 295. The local name HEADERS
assigned at line 277 does not touch the module global (no global
statement), so every fetch below still runs with the module-global None
headers. For a Private project the token is the api_token argument,
falling back to the environment token when the argument is falsy, and a
still-falsy token raises the ValueError before any fetch. Then metadata,
contributors and children are fetched (failures fatal), the cover block is
built (the title is read by direct indexing, raising a KeyError when
absent), the main file table, the wiki section (internally contained) and
the per-component file tables are rendered, and the document is finalized
by doc.build(story) with the default do-nothing page callbacks. Returns
the result (document or raised error) and the full request trace in issue
order. -/
def build_pdf (api : Api) (envToken : String) (project_id : String) (isTest : Bool)
    (output_path : Option String) (api_token : Option String)
    (project_type : Option String) (now : String) :
    Except String BuiltDoc × List Request :=
  let _headersLocal := get_headers project_type envToken
  if project_type = some "Private" ∧
      tokenFalsy (if tokenFalsy api_token then some envToken else api_token) then
    (Except.error "No OSF token provided.", [])
  else
    let rq1 := (fetch_project_metadata api project_id).1
    match (fetch_project_metadata api project_id).2 with
    | Except.error e => (Except.error e, [rq1])
    | Except.ok metadata =>
      let rq2 := (fetch_contributors api project_id).1
      match (fetch_contributors api project_id).2 with
      | Except.error e => (Except.error e, [rq1, rq2])
      | Except.ok contributors =>
        let rq3 := (fetch_components api project_id).1
        match (fetch_components api project_id).2 with
        | Except.error e => (Except.error e, [rq1, rq2, rq3])
        | Except.ok components =>
          let purl := project_url isTest project_id
          let timestamp := now
          match metadata.attributes.title with
          | none => (Except.error "KeyError: title", [rq1, rq2, rq3])
          | some title =>
            let cover := cover_blocks title purl
            let trF := (fetch_files api project_id "osfstorage").1
            match (fetch_files api project_id "osfstorage").2 with
            | Except.error e => (Except.error e, [rq1, rq2, rq3] ++ trF)
            | Except.ok files =>
              let trW := (render_wiki_section api project_id).1
              let wikiBlocks := (render_wiki_section api project_id).2
              let trC := (render_components api components).1
              match (render_components api components).2 with
              | Except.error e =>
                  (Except.error e, [rq1, rq2, rq3] ++ trF ++ trW ++ trC)
              | Except.ok compBlocks =>
                  let story := cover
                    ++ render_metadata_section metadata timestamp
                    ++ render_contributors_section contributors
                    ++ render_file_table files (some "Files in Main Project")
                    ++ wikiBlocks
                    ++ [Block.heading 2 "5. Components and Their Files"]
                    ++ compBlocks
                  (Except.ok { path := output_path, pagesize := "LETTER",
                               story := story, pageDecor := none },
                   [rq1, rq2, rq3] ++ trF ++ trW ++ trC)

/-! ## Specification-side definitions -/

/-- Spec-side slash join of a chain of names, as the claim words it. -/
def joinSlash : List String → String
  | [] => ""
  | [x] => x
  | x :: xs => x ++ "/" ++ joinSlash xs

/-- True when no folder listing in the tree fails to fetch. -/
def errFreeList : List Entry → Bool
  | [] => true
  | Entry.file _ _ _ :: rest => errFreeList rest
  | Entry.folder _ _ cs :: rest => errFreeList cs && errFreeList rest
  | Entry.folderErr _ _ _ :: _ => false

/-- True when every folder name in the tree is non-empty, as the storage
listing endpoints guarantee for real trees. -/
def folderNamesNonempty : List Entry → Bool
  | [] => true
  | Entry.file _ _ _ :: rest => folderNamesNonempty rest
  | Entry.folder n _ cs :: rest =>
      !(n == "") && (folderNamesNonempty cs && folderNamesNonempty rest)
  | Entry.folderErr _ _ _ :: rest => folderNamesNonempty rest

/-- Spec-side statement of claim C1: one FileEntry per leaf file, in
depth-first response order, named by the slash-joined chain of ancestor
folder names plus the file name with a single leading slash. -/
def claimLeaves : List Entry → List String → List FileEntry
  | [], _ => []
  | Entry.file n s l :: rest, anc =>
      { name := "/" ++ joinSlash (anc ++ [n]), size := round_size_mb s, link := l }
        :: claimLeaves rest anc
  | Entry.folder fn _ cs :: rest, anc =>
      claimLeaves cs (anc ++ [fn]) ++ claimLeaves rest anc
  | Entry.folderErr _ _ _ :: rest, anc => claimLeaves rest anc

/-- Recognizer for image blocks (the QR code is the only image the
pipeline emits). -/
def is_image : Block → Bool
  | Block.image _ => true
  | _ => false

/-! ## Concrete data used by witnesses -/

/-- A concrete attributes record. -/
def cAttrs : Attributes :=
  { title := some "Demo Project"
    description := none
    date_created := some "2025-07-01T10:20:30.000Z"
    date_modified := none
    category := some "project"
    public := some true
    registered := none
    tags := some ["osf", "pdf"]
    current_user_permissions := none
    doi := none }

/-- A concrete metadata record. -/
def cMeta : Metadata := { attributes := cAttrs, institutions := ["UoM"] }

/-- A concrete two-level storage tree. -/
def cEntries : List Entry :=
  [Entry.folder "docs" "https://api.osf.io/v2/files/dir1/"
     [Entry.file "a.txt" (some 1048576) "https://osf.io/download/a",
      Entry.folder "sub" "https://api.osf.io/v2/files/dir2/"
        [Entry.file "b.csv" none "https://osf.io/download/b"]],
   Entry.file "c.bin" (some 0) "https://osf.io/download/c"]

/-- A concrete remote API: every core endpoint answers, the wiki listing
endpoint raises. -/
def cApi : Api :=
  { project := fun _ => Except.ok cMeta
    contributors := fun _ => Except.ok [{ full_name := "Ada", bibliographic := some true,
                                          email := none }]
    children := fun _ => Except.ok []
    files := fun _ => Except.ok cEntries
    wikis := fun _ => Except.error "boom"
    wikiContent := fun _ => Except.error "nope" }

/-- A concrete remote API whose wiki list succeeds but whose wiki content
endpoint raises. -/
def cApiWiki : Api :=
  { cApi with
    wikis := fun _ => Except.ok [{ id := "w1", name := some "Home" }]
    wikiContent := fun _ => Except.error "403" }

/-! ## String helper lemmas -/

theorem string_length_zero_eq_empty (s : String) (h : s.length = 0) : s = "" := by
  cases s with
  | mk data =>
      have hd : data.length = 0 := h
      have : data = [] := List.length_eq_zero.mp hd
      simp [this]

theorem string_append_ne_left (a b : String) (h : a ≠ "") : a ++ b ≠ "" := by
  intro hc
  apply h
  have hlen : (a ++ b).length = 0 := by rw [hc]; rfl
  rw [String.length_append] at hlen
  exact string_length_zero_eq_empty a (Nat.eq_zero_of_add_eq_zero_right hlen)

theorem joinSlash_ne_empty (chain : List String) (hne : chain ≠ [])
    (h : ∀ x ∈ chain, x ≠ "") : joinSlash chain ≠ "" := by
  match chain with
  | [] => exact absurd rfl hne
  | [x] => exact h x (by simp)
  | x :: y :: ys =>
      have hx : x ≠ "" := h x (by simp)
      show x ++ "/" ++ joinSlash (y :: ys) ≠ ""
      exact string_append_ne_left _ _ (string_append_ne_left _ _ hx)

theorem joinSlash_append_singleton (chain : List String) (n : String)
    (hne : chain ≠ []) :
    joinSlash (chain ++ [n]) = joinSlash chain ++ "/" ++ n := by
  induction chain with
  | nil => exact absurd rfl hne
  | cons x xs ih =>
      cases xs with
      | nil => rfl
      | cons y ys =>
          show x ++ "/" ++ joinSlash ((y :: ys) ++ [n])
             = x ++ "/" ++ joinSlash (y :: ys) ++ "/" ++ n
          rw [ih (by simp)]
          simp [String.append_assoc]

theorem full_path_joinSlash (chain : List String) (n : String)
    (h : ∀ x ∈ chain, x ≠ "") :
    full_path (joinSlash chain) n = joinSlash (chain ++ [n]) := by
  cases chain with
  | nil => simp [joinSlash, full_path]
  | cons c cs =>
      rw [joinSlash_append_singleton _ _ (by simp)]
      rw [full_path, if_pos (joinSlash_ne_empty _ (by simp) h)]

theorem traverse_files_ok (entries : List Entry) (p : String) :
    ∀ chain : List String, p = joinSlash chain →
      errFreeList entries = true → folderNamesNonempty entries = true →
      (∀ x ∈ chain, x ≠ "") →
      (traverse_files entries p).2 = Except.ok (claimLeaves entries chain) := by
  induction entries, p using traverse_files.induct with
  | case1 p => intro chain hp h1 h2 h3; simp [traverse_files, claimLeaves]
  | case2 name size link rest p tr res hres ih =>
      intro chain hp h1 h2 h3
      simp only [errFreeList] at h1
      simp only [folderNamesNonempty] at h2
      have hrest : res = Except.ok (claimLeaves rest chain) := by
        have h := ih chain hp h1 h2 h3
        rw [hres] at h; exact h
      subst hp
      simp only [traverse_files, hres, claimLeaves]
      simp [hrest, full_path_joinSlash chain name h3, Except.map]
  | case3 name href children rest p trc fs1 hmatch trr res hres ih1 ih2 =>
      intro chain hp h1 h2 h3
      simp only [errFreeList, Bool.and_eq_true] at h1
      simp only [folderNamesNonempty, Bool.and_eq_true, Bool.not_eq_true',
        beq_eq_false_iff_ne, ne_eq] at h2
      have hname : name ≠ "" := h2.1
      have h3x : ∀ x ∈ chain ++ [name], x ≠ "" := by
        intro x hx
        rcases List.mem_append.mp hx with hx | hx
        · exact h3 x hx
        · simp at hx; subst hx; exact hname
      have hchild : fs1 = claimLeaves children (chain ++ [name]) := by
        have h := ih1 (chain ++ [name])
          (by rw [hp, full_path_joinSlash chain name h3]) h1.1 h2.2.1 h3x
        rw [hmatch] at h
        exact (Except.ok.injEq _ _).mp h
      have hrest : res = Except.ok (claimLeaves rest chain) := by
        have h := ih2 chain hp h1.2 h2.2.2 h3
        rw [hres] at h; exact h
      simp only [traverse_files, hmatch, hres, claimLeaves]
      simp [hchild, hrest, Except.map]
  | case4 name href children rest p trc e hmatch ih =>
      intro chain hp h1 h2 h3
      simp only [errFreeList, Bool.and_eq_true] at h1
      simp only [folderNamesNonempty, Bool.and_eq_true, Bool.not_eq_true',
        beq_eq_false_iff_ne, ne_eq] at h2
      have hname : name ≠ "" := h2.1
      have h3x : ∀ x ∈ chain ++ [name], x ≠ "" := by
        intro x hx
        rcases List.mem_append.mp hx with hx | hx
        · exact h3 x hx
        · simp at hx; subst hx; exact hname
      have h := ih (chain ++ [name])
        (by rw [hp, full_path_joinSlash chain name h3]) h1.1 h2.2.1 h3x
      rw [hmatch] at h
      exact absurd h (by simp)
  | case5 name href msg rest p =>
      intro chain hp h1 h2 h3
      simp [errFreeList] at h1

theorem fetch_files_spec_aux (api : Api) (cid prov : String)
    (entries : List Entry) (hroot : api.files cid = Except.ok entries)
    (herr : errFreeList entries = true)
    (hnames : folderNamesNonempty entries = true) :
    (fetch_files api cid prov).2 = Except.ok (claimLeaves entries []) := by
  simp only [fetch_files, hroot]
  exact traverse_files_ok entries "" [] rfl herr hnames (by simp)

/-! ## Claim C1 -/

/-- C1: for every acyclic folder tree returned by the storage listing
endpoints (all folder listings fetch successfully; folder names are
non-empty, as the endpoints guarantee), at every depth, fetch_files
produces exactly one FileEntry per leaf file, in depth-first API response
order, named by the slash-joined chain of ancestor folder names plus the
file name with a single leading slash — the statement claimLeaves of the
claim. -/
theorem fetch_files_one_entry_per_leaf (api : Api) (cid prov : String)
    (entries : List Entry) (hroot : api.files cid = Except.ok entries)
    (herr : errFreeList entries = true)
    (hnames : folderNamesNonempty entries = true) :
    (fetch_files api cid prov).2 = Except.ok (claimLeaves entries []) :=
  fetch_files_spec_aux api cid prov entries hroot herr hnames

/-- Witness for C1 on the concrete two-level tree: the three leaf files
come out in depth-first order with slash-joined root-relative paths. -/
theorem fetch_files_one_entry_per_leaf_witness :
    (fetch_files cApi "kzc68" "osfstorage").2 = Except.ok (claimLeaves cEntries []) ∧
    claimLeaves cEntries [] =
      [{ name := "/docs/a.txt", size := 1, link := "https://osf.io/download/a" },
       { name := "/docs/sub/b.csv", size := 0, link := "https://osf.io/download/b" },
       { name := "/c.bin", size := 0, link := "https://osf.io/download/c" }] :=
  ⟨fetch_files_one_entry_per_leaf cApi "kzc68" "osfstorage" cEntries rfl
     (by simp [cEntries, errFreeList]) (by simp [cEntries, folderNamesNonempty]),
   by
     simp [cEntries, claimLeaves, joinSlash, round_size_mb, pyRound2, pyRoundHalfEven]
     norm_num [round_eq]⟩

/-! ## Claim C8 -/

/-- C8: the FileEntry size in MB is the byte size divided by 1048576
rounded to 2 decimal places; an absent or zero byte size yields size 0,
and the renderer shows a zero size as the string N/A. -/
theorem file_size_mb_formula :
    (∀ s : Option Nat, round_size_mb s = pyRound2 ((s.getD 0 : ℚ) / 1048576)) ∧
    round_size_mb none = 0 ∧
    round_size_mb (some 0) = 0 ∧
    (∀ f : FileEntry, f.size = 0 →
      file_row f = [Cell.str f.name, Cell.str "N/A", Cell.str f.link]) := by
  refine ⟨fun s => by norm_num [round_size_mb], ?_, ?_, ?_⟩
  · norm_num [round_size_mb, pyRound2, pyRoundHalfEven]
  · norm_num [round_size_mb, pyRound2, pyRoundHalfEven]
  · intro f h
    simp [file_row, h]

/-- Witness for C8: 1572864 bytes round to 1.5 MB, and a zero-size entry
is rendered as N/A. -/
theorem file_size_mb_formula_witness :
    round_size_mb (some 1572864) = 3 / 2 ∧
    file_row { name := "/a", size := 0, link := "L" }
      = [Cell.str "/a", Cell.str "N/A", Cell.str "L"] := by
  constructor
  · rw [file_size_mb_formula.1 (some 1572864)]
    norm_num [pyRound2, pyRoundHalfEven, round_eq]
  · exact file_size_mb_formula.2.2.2 _ rfl

/-! ## Claim C5 -/

/-- C5: for every metadata record the renderer appends exactly the 11
fixed-order labelled lines (Title, Description, Date Created, Last
Modified, Category, Public?, Registration?, Tags, Current Permissions,
DOI, Exported At) plus one affiliated-institutions line — 14 blocks in all
counting the heading and the trailing Spacer — regardless of which
attributes are present; a missing field renders as N/A and a missing
description as No description provided. -/
theorem metadata_eleven_lines (m : Metadata) (ts : String) :
    render_metadata_section m ts =
      [Block.heading 2 "1. Project Metadata",
       Block.para ("<b>Title:</b> " ++
         (match m.attributes.title with
          | some v => v
          | none => "N/A")),
       Block.para ("<b>Description:</b> " ++
         (match m.attributes.description with
          | some v => v
          | none => "No description provided")),
       Block.para ("<b>Date Created:</b> " ++
         (match m.attributes.date_created with
          | some v => v.take 10
          | none => "N/A")),
       Block.para ("<b>Last Modified:</b> " ++
         (match m.attributes.date_modified with
          | some v => v.take 10
          | none => "N/A")),
       Block.para ("<b>Category:</b> " ++
         (match m.attributes.category with
          | some v => v
          | none => "N/A")),
       Block.para ("<b>Public?:</b> " ++
         (match m.attributes.public with
          | some b => if b then "Yes" else "No"
          | none => "No")),
       Block.para ("<b>Registration?:</b> " ++
         (match m.attributes.registered with
          | some b => if b then "Yes" else "No"
          | none => "No")),
       Block.para ("<b>Tags:</b> " ++
         (match m.attributes.tags with
          | some l => pyStrList l
          | none => "N/A")),
       Block.para ("<b>Current Permissions:</b> " ++
         (match m.attributes.current_user_permissions with
          | some l => pyStrList l
          | none => "N/A")),
       Block.para ("<b>DOI:</b> " ++
         (match m.attributes.doi with
          | some v => v
          | none => "N/A")),
       Block.para ("<b>Exported At:</b> " ++ ts),
       Block.para ("<b>Affiliated Institution(s):</b> " ++
         (if m.institutions = [] then "None listed"
          else String.intercalate ", " m.institutions)),
       Block.spacer] ∧
    (render_metadata_section m ts).length = 14 := by
  obtain ⟨⟨t, d, dc, dm, cat, pub, reg, tags, perms, doi⟩, inst⟩ := m
  refine ⟨?_, by simp [render_metadata_section, meta_fields]⟩
  simp only [render_metadata_section, meta_fields, List.map_cons, List.map_nil,
    List.cons_append, List.nil_append]
  cases t <;> cases d <;> cases dc <;> cases dm <;> cases cat <;> cases doi <;>
    cases pub <;> cases reg <;>
    simp [Option.getD]
  all_goals decide

/-! ## Claim C10 -/

/-- C10: when the date_created or date_modified attribute is a string the
renderer outputs only its first 10 characters (for an ISO timestamp of
the shape date plus suffix, exactly the 10-character date part); when the
key is absent the N/A default is rendered. -/
theorem metadata_date_first_ten (m : Metadata) (ts : String) :
    (∀ s, m.attributes.date_created = some s →
      (render_metadata_section m ts)[3]? =
        some (Block.para ("<b>Date Created:</b> " ++ s.take 10))) ∧
    (m.attributes.date_created = none →
      (render_metadata_section m ts)[3]? =
        some (Block.para "<b>Date Created:</b> N/A")) ∧
    (∀ s, m.attributes.date_modified = some s →
      (render_metadata_section m ts)[4]? =
        some (Block.para ("<b>Last Modified:</b> " ++ s.take 10))) ∧
    (m.attributes.date_modified = none →
      (render_metadata_section m ts)[4]? =
        some (Block.para "<b>Last Modified:</b> N/A")) ∧
    (∀ d t : String, d.length = 10 → (d ++ t).take 10 = d) := by
  refine ⟨?_, ?_, ?_, ?_, ?_⟩
  · intro s h
    simp [render_metadata_section, meta_fields, h]
  · intro h
    simp [render_metadata_section, meta_fields, h]
    decide
  · intro s h
    simp [render_metadata_section, meta_fields, h]
  · intro h
    simp [render_metadata_section, meta_fields, h]
    decide
  · intro d t hd
    obtain ⟨l⟩ := d
    rw [String.take_eq]
    have h2 : (String.mk l ++ t).1 = l ++ t.1 := String.data_append _ _
    rw [h2]
    have hlen : l.length = 10 := hd
    rw [← hlen, List.take_left]

/-- Witness for C10 on the concrete metadata record: the ISO timestamp is
cut to its date part. -/
theorem metadata_date_first_ten_witness :
    (render_metadata_section cMeta "TS")[3]? =
      some (Block.para "<b>Date Created:</b> 2025-07-01") := by
  have h := (metadata_date_first_ten cMeta "TS").1 "2025-07-01T10:20:30.000Z" rfl
  rw [h]
  decide

/-! ## Claim C6 -/

/-- C6 counterexample: on the empty file list with a custom heading the
renderer emits the custom heading and the no-files line only — the fixed
heading 3. Files OSF Storage is not emitted, contrary to the claim that
the fixed heading always follows the custom one. -/
theorem render_file_table_empty_counterexample :
    render_file_table [] (some "Files in Main Project")
      = [Block.heading 2 "Files in Main Project",
         Block.para "3. No files available."]
    ∧ Block.heading 2 "3. Files OSF Storage" ∉
        render_file_table [] (some "Files in Main Project") := by
  constructor
  · rfl
  · decide

/-- C6 amended: the renderer emits the optional custom heading; then, if
the list is empty, a no-files line and nothing else (the fixed heading is
omitted); otherwise the fixed heading, a table with columns File Name,
Size MB, Download Link — one row per FileEntry in traversal order, size
rendered N/A when falsy — and a Spacer. -/
theorem render_file_table_amended (files : List FileEntry) (heading : Option String) :
    render_file_table files heading =
      (match heading with
       | some h => [Block.heading 2 h]
       | none => [])
      ++ (if files = [] then [Block.para "3. No files available."]
          else [Block.heading 2 "3. Files OSF Storage",
                Block.table
                  ([Cell.str "File Name", Cell.str "Size \n(MB)",
                    Cell.str "Download Link"]
                    :: files.map (fun f =>
                        [Cell.str f.name,
                         if f.size ≠ 0 then Cell.num f.size else Cell.str "N/A",
                         Cell.str f.link])),
                Block.spacer]) := by
  by_cases h : files = [] <;> simp [render_file_table, h, file_row]

/-! ## Pipeline helper lemmas -/

theorem build_pdf_ok_intro (api : Api) (envToken project_id : String) (isTest : Bool)
    (path : Option String) (tok : Option String) (now : String)
    (metadata : Metadata) (title : String) (contributors : List Contributor)
    (components : List Component) (files : List FileEntry) (compBlocks : List Block)
    (h1 : api.project project_id = Except.ok metadata)
    (h2 : metadata.attributes.title = some title)
    (h3 : api.contributors project_id = Except.ok contributors)
    (h4 : api.children project_id = Except.ok components)
    (h5 : (fetch_files api project_id "osfstorage").2 = Except.ok files)
    (h6 : (render_components api components).2 = Except.ok compBlocks) :
    (build_pdf api envToken project_id isTest path tok none now).1 =
      Except.ok { path := path, pagesize := "LETTER",
                  story := cover_blocks title (project_url isTest project_id)
                    ++ render_metadata_section metadata now
                    ++ render_contributors_section contributors
                    ++ render_file_table files (some "Files in Main Project")
                    ++ (render_wiki_section api project_id).2
                    ++ [Block.heading 2 "5. Components and Their Files"]
                    ++ compBlocks,
                  pageDecor := none } := by
  simp [build_pdf, fetch_project_metadata, fetch_contributors, fetch_components,
    h1, h2, h3, h4, h5, h6]

theorem build_pdf_ok_elim (api : Api) (envToken project_id : String) (isTest : Bool)
    (path : Option String) (tok ptype : Option String) (now : String) (d : BuiltDoc)
    (h : (build_pdf api envToken project_id isTest path tok ptype now).1 = Except.ok d) :
    ∃ metadata title contributors files compBlocks,
      api.project project_id = Except.ok metadata ∧
      metadata.attributes.title = some title ∧
      api.contributors project_id = Except.ok contributors ∧
      (fetch_files api project_id "osfstorage").2 = Except.ok files ∧
      (∃ components, api.children project_id = Except.ok components ∧
        (render_components api components).2 = Except.ok compBlocks) ∧
      d.pageDecor = none ∧
      d.story = cover_blocks title (project_url isTest project_id)
        ++ render_metadata_section metadata now
        ++ render_contributors_section contributors
        ++ render_file_table files (some "Files in Main Project")
        ++ (render_wiki_section api project_id).2
        ++ [Block.heading 2 "5. Components and Their Files"]
        ++ compBlocks := by
  simp only [build_pdf, fetch_project_metadata, fetch_contributors,
    fetch_components] at h
  by_cases hcond : ptype = some "Private" ∧
      tokenFalsy (if tokenFalsy tok then some envToken else tok) = true
  · rw [if_pos hcond] at h
    simp at h
  · rw [if_neg hcond] at h
    rcases hproj : api.project project_id with e | metadata <;>
      simp only [hproj] at h
    · simp at h
    · rcases hcon : api.contributors project_id with e | contributors <;>
        simp only [hcon] at h
      · simp at h
      · rcases hch : api.children project_id with e | components <;>
          simp only [hch] at h
        · simp at h
        · rcases htitle : metadata.attributes.title with _ | title <;>
            simp only [htitle] at h
          · simp at h
          · rcases hf : (fetch_files api project_id "osfstorage").2 with e | files <;>
              simp only [hf] at h
            · simp at h
            · rcases hcomp : (render_components api components).2 with e | compBlocks <;>
                simp only [hcomp] at h
              · simp at h
              · refine ⟨metadata, title, contributors, files, compBlocks,
                  rfl, htitle, rfl, rfl, ⟨components, rfl, hcomp⟩, ?_, ?_⟩ <;>
                  (cases h; rfl)

/-! ## Image-count helper lemmas -/

theorem countP_is_image_metadata (m : Metadata) (ts : String) :
    (render_metadata_section m ts).countP is_image = 0 := by
  simp [render_metadata_section, List.countP_cons, List.countP_append,
    List.countP_map, is_image, Function.comp]

theorem countP_is_image_contributors (cs : List Contributor) :
    (render_contributors_section cs).countP is_image = 0 := by
  by_cases h : cs = [] <;>
    simp [render_contributors_section, h, List.countP_cons, is_image]

theorem countP_is_image_file_table (files : List FileEntry) (heading : Option String) :
    (render_file_table files heading).countP is_image = 0 := by
  by_cases h : files = [] <;> cases heading <;>
    simp [render_file_table, h, List.countP_cons, List.countP_append, is_image]

theorem wiki_content_block_not_image (o : Option String) :
    is_image (wiki_content_block o) = false := by
  rcases o with _ | c
  · simp [wiki_content_block, is_image]
  · by_cases ht : c = "" <;> simp [wiki_content_block, ht, is_image]

theorem wiki_page_blocks_no_image (api : Api) (p : WikiPage) (b : Block)
    (hb : b ∈ (render_wiki_page api p).2) : is_image b = false := by
  simp only [render_wiki_page, List.mem_cons, List.not_mem_nil, or_false] at hb
  rcases hb with h | h | h | h <;> rw [h]
  · simp [is_image]
  · simp [is_image]
  · exact wiki_content_block_not_image _
  · simp [is_image]

theorem countP_is_image_wiki (api : Api) (pid : String) :
    ((render_wiki_section api pid).2).countP is_image = 0 := by
  rw [List.countP_eq_zero]
  intro b hb
  rcases hw : api.wikis pid with e | pages
  · simp [render_wiki_section, fetch_wiki_pages, hw] at hb
    rcases hb with rfl | rfl | rfl <;> simp [is_image]
  · cases pages with
    | nil =>
        simp [render_wiki_section, fetch_wiki_pages, hw] at hb
        rcases hb with rfl | rfl <;> simp [is_image]
    | cons p ps =>
        simp [render_wiki_section, fetch_wiki_pages, hw] at hb
        rcases hb with rfl | hbp | ⟨q, hq, hbq⟩
        · simp [is_image]
        · simp [wiki_page_blocks_no_image api p b hbp]
        · simp [wiki_page_blocks_no_image api q b hbq]

theorem countP_is_image_components (api : Api) : ∀ comps compBlocks,
    (render_components api comps).2 = Except.ok compBlocks →
    compBlocks.countP is_image = 0 := by
  intro comps
  induction comps with
  | nil =>
      intro bs h
      simp [render_components] at h
      simp [h]
  | cons c rest ih =>
      intro bs h
      simp only [render_components] at h
      rcases hf : (fetch_files api c.id "osfstorage").2 with e | fs <;>
        simp only [hf] at h
      · simp at h
      · rcases hr : (render_components api rest).2 with e | bs2 <;>
          simp only [hr] at h
        · simp [Except.map] at h
        · simp only [Except.map, Except.ok.injEq] at h
          subst h
          simp only [List.countP_append, List.countP_cons]
          rw [ih bs2 hr, countP_is_image_file_table]
          simp [is_image]

/-! ## Concrete evaluation helpers -/

theorem cApi_files_eval (cid : String) :
    (fetch_files cApi cid "osfstorage").2 = Except.ok (claimLeaves cEntries []) :=
  fetch_files_spec_aux cApi cid "osfstorage" cEntries rfl
    (by simp [cEntries, errFreeList]) (by simp [cEntries, folderNamesNonempty])

theorem cApi_build_eval :
    (build_pdf cApi "envtok" "kzc68" false none none none "TS").1 =
      Except.ok { path := none, pagesize := "LETTER",
                  story := cover_blocks "Demo Project" (project_url false "kzc68")
                    ++ render_metadata_section cMeta "TS"
                    ++ render_contributors_section
                        [{ full_name := "Ada", bibliographic := some true,
                           email := none }]
                    ++ render_file_table (claimLeaves cEntries [])
                        (some "Files in Main Project")
                    ++ (render_wiki_section cApi "kzc68").2
                    ++ [Block.heading 2 "5. Components and Their Files"]
                    ++ [],
                  pageDecor := none } :=
  build_pdf_ok_intro cApi "envtok" "kzc68" false none none "TS" cMeta "Demo Project"
    [{ full_name := "Ada", bibliographic := some true, email := none }]
    [] (claimLeaves cEntries []) []
    rfl rfl rfl rfl (cApi_files_eval "kzc68") rfl

/-! ## Claim C7 -/

/-- C7 counterexample: a successful concrete export finalizes its document
with no page-decoration callback at all — doc.build(story) at line 329
passes no onFirstPage / onLaterPages — so no page carries a footer with
the export timestamp, the page number and the QR code, contrary to the
claim. -/
theorem build_pdf_footer_counterexample :
    (build_pdf cApi "envtok" "kzc68" false none none none "TS").1.map
      (fun d => d.pageDecor) = Except.ok none := by
  rw [cApi_build_eval]
  rfl

/-- C7 amended: every finalized export document carries no per-page
footer (the document is built with no page-decoration callback), and the
QR code appears exactly once in the whole story — in the cover block,
not on any page footer. -/
theorem build_pdf_no_footer (api : Api) (envToken project_id : String) (isTest : Bool)
    (path : Option String) (tok ptype : Option String) (now : String) (d : BuiltDoc)
    (h : (build_pdf api envToken project_id isTest path tok ptype now).1 = Except.ok d) :
    d.pageDecor = none ∧ d.story.countP is_image = 1 := by
  obtain ⟨metadata, title, contributors, files, compBlocks, h1, h2, h3, h5,
    ⟨components, h4, h6⟩, hdec, hstory⟩ :=
    build_pdf_ok_elim api envToken project_id isTest path tok ptype now d h
  refine ⟨hdec, ?_⟩
  rw [hstory]
  simp only [List.countP_append]
  rw [countP_is_image_metadata, countP_is_image_contributors,
    countP_is_image_file_table, countP_is_image_wiki,
    countP_is_image_components api components compBlocks h6]
  simp [cover_blocks, List.countP_cons, is_image]

/-- Witness for the amended C7 on the concrete export: page decoration
none, exactly one QR image in the story. -/
theorem build_pdf_no_footer_witness :
    (build_pdf cApi "envtok" "kzc68" false none none none "TS").1.map
      (fun d => (d.pageDecor, d.story.countP is_image)) = Except.ok (none, 1) := by
  have h := build_pdf_no_footer cApi "envtok" "kzc68" false none none none "TS" _
    cApi_build_eval
  rw [cApi_build_eval]
  simp only [Except.map]
  rw [show (none : Option PageDecoration) = ((none : Option PageDecoration), (1 : Nat)).1 from rfl]
  exact congrArg Except.ok (Prod.ext h.1 h.2)

/-! ## Claim C3 -/

/-- C3: calling build_pdf on a Private project when no token is available
(the api_token argument is falsy and the OSF_TOKEN environment value is
empty) raises the authentication error ValueError "No OSF token provided."
with an empty request trace — no network fetch of metadata, contributors,
components or files precedes the error. -/
theorem private_no_token_fails_before_fetch (api : Api) (pid : String) (isTest : Bool)
    (path : Option String) (tok : Option String) (now : String)
    (htok : tokenFalsy tok = true) :
    build_pdf api "" pid isTest path tok (some "Private") now
      = (Except.error "No OSF token provided.", []) := by
  simp [build_pdf, htok, show tokenFalsy (some "") = true from rfl]

/-- Witness for C3: concrete Private export with no caller token and an
empty environment token fails with the error and an empty trace. -/
theorem private_no_token_fails_before_fetch_witness :
    build_pdf cApi "" "kzc68" false none none (some "Private") "TS"
      = (Except.error "No OSF token provided.", []) :=
  private_no_token_fails_before_fetch cApi "kzc68" false none none "TS" rfl

/-! ## Claim C9 -/

/-- C9: for a Private project with api_token absent, build_pdf falls back
to the OSF_TOKEN environment value: when that is non-empty the export
proceeds (the first request, the metadata fetch, is issued), and only
when it too is empty is the no-token error raised — before any fetch. -/
theorem private_token_env_fallback :
    (∀ (api : Api) (envToken pid : String) (isTest : Bool) (path : Option String)
       (now : String), envToken ≠ "" →
       (build_pdf api envToken pid isTest path none (some "Private") now).2.head?
         = some { url := BASE_URL ++ pid ++ "/?embed=affiliated_institutions",
                  headers := HEADERS }) ∧
    (∀ (api : Api) (pid : String) (isTest : Bool) (path : Option String) (now : String),
       build_pdf api "" pid isTest path none (some "Private") now
         = (Except.error "No OSF token provided.", [])) := by
  constructor
  · intro api envToken pid isTest path now henv
    simp only [build_pdf]
    rw [if_neg (by simp [tokenFalsy, henv])]
    rcases hproj : api.project pid with e | m <;>
      simp only [fetch_project_metadata, fetch_contributors, fetch_components, hproj]
    · simp
    · rcases hcon : api.contributors pid with e | cs <;> simp only [hcon]
      · simp
      · rcases hch : api.children pid with e | comps <;> simp only [hch]
        · simp
        · rcases htitle : m.attributes.title with _ | t <;> simp only [htitle]
          · simp
          · rcases hf : (fetch_files api pid "osfstorage").2 with e | fs <;>
              simp only [hf]
            · simp
            · rcases hcomp : (render_components api comps).2 with e | bs <;>
                simp only [hcomp]
              · simp
              · simp
  · intro api pid isTest path now
    simp [build_pdf, show tokenFalsy (none : Option String) = true from rfl,
      show tokenFalsy (some "") = true from rfl]

/-- Witness for C9: with the caller token absent, a non-empty environment
token lets the export reach the metadata fetch; an empty one raises the
no-token error before any fetch. -/
theorem private_token_env_fallback_witness :
    (build_pdf cApi "envtok" "kzc68" false none none (some "Private") "TS").2.head?
      = some { url := BASE_URL ++ "kzc68" ++ "/?embed=affiliated_institutions",
               headers := HEADERS } ∧
    build_pdf cApi "" "kzc68" false none none (some "Private") "TS"
      = (Except.error "No OSF token provided.", []) :=
  ⟨private_token_env_fallback.1 cApi "envtok" "kzc68" false none "TS" (by decide),
   private_token_env_fallback.2 cApi "kzc68" false none "TS"⟩

/-! ## Request-trace helper lemmas -/

theorem traverse_files_headers (entries : List Entry) (p : String) :
    ∀ r ∈ (traverse_files entries p).1, r.headers = none := by
  induction entries, p using traverse_files.induct with
  | case1 p => simp [traverse_files]
  | case2 name size link rest p tr res hres ih =>
      intro r hr
      simp only [traverse_files, hres] at hr
      exact ih r (by rw [hres]; exact hr)
  | case3 name href children rest p trc fs1 hmatch trr res hres ih1 ih2 =>
      intro r hr
      simp only [traverse_files, hmatch, hres, List.mem_cons, List.mem_append] at hr
      rcases hr with rfl | hr | hr
      · rfl
      · exact ih1 r (by rw [hmatch]; exact hr)
      · exact ih2 r (by rw [hres]; exact hr)
  | case4 name href children rest p trc e hmatch ih =>
      intro r hr
      simp only [traverse_files, hmatch, List.mem_cons] at hr
      rcases hr with rfl | hr
      · rfl
      · exact ih r (by rw [hmatch]; exact hr)
  | case5 name href msg rest p =>
      intro r hr
      simp only [traverse_files] at hr
      simp at hr
      subst hr
      rfl

theorem fetch_files_headers (api : Api) (cid prov : String) :
    ∀ r ∈ (fetch_files api cid prov).1, r.headers = none := by
  intro r hr
  rcases hroot : api.files cid with e | entries <;>
    simp only [fetch_files, hroot] at hr
  · simp at hr
    subst hr
    rfl
  · simp only [List.mem_cons] at hr
    rcases hr with rfl | hr
    · rfl
    · exact traverse_files_headers entries "" r hr

theorem wiki_section_headers (api : Api) (pid : String) :
    ∀ r ∈ (render_wiki_section api pid).1, r.headers = none := by
  intro r hr
  rcases hw : api.wikis pid with e | pages
  · simp [render_wiki_section, fetch_wiki_pages, hw] at hr
    subst hr
    rfl
  · cases pages with
    | nil =>
        simp [render_wiki_section, fetch_wiki_pages, hw] at hr
        subst hr
        rfl
    | cons q qs =>
        simp [render_wiki_section, fetch_wiki_pages, hw, render_wiki_page,
          fetch_wiki_content_by_id] at hr
        rcases hr with rfl | rfl | ⟨a, ha, rfl⟩ <;> rfl

theorem components_headers (api : Api) : ∀ (comps : List Component),
    ∀ r ∈ (render_components api comps).1, r.headers = none := by
  intro comps
  induction comps with
  | nil => simp [render_components]
  | cons c rest ih =>
      intro r hr
      rcases hf : (fetch_files api c.id "osfstorage").2 with e | fs <;>
        simp only [render_components, hf] at hr
      · exact fetch_files_headers api c.id "osfstorage" r hr
      · rcases List.mem_append.mp hr with hr | hr
        · exact fetch_files_headers api c.id "osfstorage" r hr
        · exact ih r hr

theorem build_head_aux (api : Api) (envToken pid : String) (isTest : Bool)
    (path : Option String) (tok ptype : Option String) (now : String)
    (hna : ¬(ptype = some "Private" ∧
      tokenFalsy (if tokenFalsy tok then some envToken else tok) = true)) :
    (build_pdf api envToken pid isTest path tok ptype now).2.head?
      = some { url := BASE_URL ++ pid ++ "/?embed=affiliated_institutions",
               headers := HEADERS } := by
  simp only [build_pdf]
  rw [if_neg hna]
  rcases hproj : api.project pid with e | m <;>
    simp only [fetch_project_metadata, fetch_contributors, fetch_components, hproj]
  · simp
  · rcases hcon : api.contributors pid with e | cs <;> simp only [hcon]
    · simp
    · rcases hch : api.children pid with e | comps <;> simp only [hch]
      · simp
      · rcases htitle : m.attributes.title with _ | t <;> simp only [htitle]
        · simp
        · rcases hf : (fetch_files api pid "osfstorage").2 with e | fs <;>
            simp only [hf]
          · simp
          · rcases hcomp : (render_components api comps).2 with e | bs <;>
              simp only [hcomp]
            · simp
            · simp

/-! ## Claim C2 -/

/-- C2 (evidence of the code bug): every HTTP GET issued during any
build_pdf run is sent with headers None — never with an Authorization:
Bearer header — whatever token is supplied, because the module-level
HEADERS read by the fetch functions stays None: the assignments inside
get_headers and build_pdf are function-local (neither declares global
HEADERS). The dict get_headers builds for a Private project does carry
the intended Bearer value, but it never reaches any request. -/
theorem requests_never_authenticated :
    (∀ (api : Api) (envToken pid : String) (isTest : Bool) (path : Option String)
       (tok ptype : Option String) (now : String) (r : Request),
       r ∈ (build_pdf api envToken pid isTest path tok ptype now).2 →
       r.headers = none) ∧
    HEADERS = none ∧
    (∀ t, get_headers (some "Private") t
        = [("Authorization", HeaderVal.bearer t)]) := by
  refine ⟨?_, rfl, fun t => rfl⟩
  intro api envToken pid isTest path tok ptype now r hr
  simp only [build_pdf] at hr
  by_cases hcond : ptype = some "Private" ∧
      tokenFalsy (if tokenFalsy tok then some envToken else tok) = true
  · rw [if_pos hcond] at hr
    simp at hr
  · rw [if_neg hcond] at hr
    rcases hproj : api.project pid with e | m <;>
      simp only [fetch_project_metadata, fetch_contributors, fetch_components,
        hproj] at hr
    · simp at hr
      subst hr
      rfl
    · rcases hcon : api.contributors pid with e | cs <;> simp only [hcon] at hr
      · simp at hr
        rcases hr with rfl | rfl <;> rfl
      · rcases hch : api.children pid with e | comps <;> simp only [hch] at hr
        · simp at hr
          rcases hr with rfl | rfl | rfl <;> rfl
        · rcases htitle : m.attributes.title with _ | t <;> simp only [htitle] at hr
          · simp at hr
            rcases hr with rfl | rfl | rfl <;> rfl
          · rcases hf : (fetch_files api pid "osfstorage").2 with e | fs <;>
              simp only [hf] at hr
            · simp only [List.mem_append, List.mem_cons, List.not_mem_nil,
                or_false] at hr
              rcases hr with (rfl | rfl | rfl) | hr
              · rfl
              · rfl
              · rfl
              · exact fetch_files_headers api pid "osfstorage" r hr
            · rcases hcomp : (render_components api comps).2 with e | bs <;>
                simp only [hcomp] at hr
              all_goals
                simp only [List.mem_append, List.mem_cons, List.not_mem_nil,
                  or_false] at hr
              all_goals
                rcases hr with (((rfl | rfl | rfl) | hr) | hr) | hr
              all_goals
                first
                | rfl
                | exact fetch_files_headers api pid "osfstorage" r hr
                | exact wiki_section_headers api pid r hr
                | exact components_headers api comps r hr

/-- Witness for C2 at the failing input: a Private export called with an
api_token — the metadata request is issued, and it carries headers None,
not the Bearer header the claim requires. -/
theorem requests_never_authenticated_witness :
    (Request.mk (BASE_URL ++ "kzc68" ++ "/?embed=affiliated_institutions") HEADERS)
      ∈ (build_pdf cApi "envtok" "kzc68" false none (some "secret")
          (some "Private") "TS").2
    ∧ (Request.mk (BASE_URL ++ "kzc68" ++ "/?embed=affiliated_institutions")
        HEADERS).headers = none := by
  have hh := build_head_aux cApi "envtok" "kzc68" false none (some "secret")
    (some "Private") "TS" (by decide)
  have hmem := List.mem_of_mem_head? (l :=
    (build_pdf cApi "envtok" "kzc68" false none (some "secret")
      (some "Private") "TS").2) (Option.mem_def.mpr hh)
  exact ⟨hmem,
    requests_never_authenticated.1 cApi "envtok" "kzc68" false none (some "secret")
      (some "Private") "TS" _ hmem⟩

/-! ## Claim C4 -/

theorem render_components_err (api : Api) : ∀ (comps : List Component),
    (∃ c ∈ comps, ¬((fetch_files api c.id "osfstorage").2).isOk = true) →
    ∃ e, (render_components api comps).2 = Except.error e := by
  intro comps
  induction comps with
  | nil =>
      rintro ⟨c, hc, _⟩
      exact absurd hc (List.not_mem_nil c)
  | cons c rest ih =>
      rintro ⟨q, hq, hfail⟩
      rcases hf : (fetch_files api c.id "osfstorage").2 with e | fs
      · exact ⟨e, by simp [render_components, hf]⟩
      · rcases List.mem_cons.mp hq with rfl | hq
        · rw [hf] at hfail
          simp [Except.isOk, Except.toBool] at hfail
        · obtain ⟨e, he⟩ := ih ⟨q, hq, hfail⟩
          exact ⟨e, by simp [render_components, hf, he, Except.map]⟩

/-- C4: a failure fetching the wiki page list is caught inside
render_wiki_section and rendered as an inline Error block, and a failure
fetching an individual page content is rendered as the fixed
"No content returned or unauthorized access" line — in both cases the
export completes. This is the only caught-and-rendered failure path:
a failure of the metadata, contributors, children, main file-tree or
per-component file-tree fetch makes the whole export fail. -/
theorem wiki_only_caught_failure_path :
    (∀ (api : Api) (envToken pid : String) (isTest : Bool) (path : Option String)
       (tok : Option String) (now : String) (m : Metadata) (t : String)
       (cs : List Contributor) (comps : List Component) (fs : List FileEntry)
       (cbs : List Block) (e : String),
       api.project pid = Except.ok m → m.attributes.title = some t →
       api.contributors pid = Except.ok cs → api.children pid = Except.ok comps →
       (fetch_files api pid "osfstorage").2 = Except.ok fs →
       (render_components api comps).2 = Except.ok cbs →
       api.wikis pid = Except.error e →
       ∃ d, (build_pdf api envToken pid isTest path tok none now).1 = Except.ok d ∧
         Block.para ("Could not fetch wiki: " ++ e) ∈ d.story) ∧
    (∀ (api : Api) (envToken pid : String) (isTest : Bool) (path : Option String)
       (tok : Option String) (now : String) (m : Metadata) (t : String)
       (cs : List Contributor) (comps : List Component) (fs : List FileEntry)
       (cbs : List Block) (pages : List WikiPage) (p : WikiPage) (e : String),
       api.project pid = Except.ok m → m.attributes.title = some t →
       api.contributors pid = Except.ok cs → api.children pid = Except.ok comps →
       (fetch_files api pid "osfstorage").2 = Except.ok fs →
       (render_components api comps).2 = Except.ok cbs →
       api.wikis pid = Except.ok pages → p ∈ pages →
       api.wikiContent p.id = Except.error e →
       ∃ d, (build_pdf api envToken pid isTest path tok none now).1 = Except.ok d ∧
         Block.para "No content returned or unauthorized access" ∈ d.story) ∧
    (∀ (api : Api) (envToken pid : String) (isTest : Bool) (path : Option String)
       (tok : Option String) (now : String) (e : String),
       api.project pid = Except.error e →
       (build_pdf api envToken pid isTest path tok none now).1 = Except.error e) ∧
    (∀ (api : Api) (envToken pid : String) (isTest : Bool) (path : Option String)
       (tok : Option String) (now : String) (m : Metadata) (e : String),
       api.project pid = Except.ok m → api.contributors pid = Except.error e →
       (build_pdf api envToken pid isTest path tok none now).1 = Except.error e) ∧
    (∀ (api : Api) (envToken pid : String) (isTest : Bool) (path : Option String)
       (tok : Option String) (now : String) (m : Metadata) (cs : List Contributor)
       (e : String),
       api.project pid = Except.ok m → api.contributors pid = Except.ok cs →
       api.children pid = Except.error e →
       (build_pdf api envToken pid isTest path tok none now).1 = Except.error e) ∧
    (∀ (api : Api) (envToken pid : String) (isTest : Bool) (path : Option String)
       (tok : Option String) (now : String) (m : Metadata) (t : String)
       (cs : List Contributor) (comps : List Component) (e : String),
       api.project pid = Except.ok m → m.attributes.title = some t →
       api.contributors pid = Except.ok cs → api.children pid = Except.ok comps →
       (fetch_files api pid "osfstorage").2 = Except.error e →
       (build_pdf api envToken pid isTest path tok none now).1 = Except.error e) ∧
    (∀ (api : Api) (envToken pid : String) (isTest : Bool) (path : Option String)
       (tok : Option String) (now : String) (m : Metadata) (t : String)
       (cs : List Contributor) (comps : List Component) (fs : List FileEntry),
       api.project pid = Except.ok m → m.attributes.title = some t →
       api.contributors pid = Except.ok cs → api.children pid = Except.ok comps →
       (fetch_files api pid "osfstorage").2 = Except.ok fs →
       (∃ c ∈ comps, ¬((fetch_files api c.id "osfstorage").2).isOk = true) →
       ∃ e, (build_pdf api envToken pid isTest path tok none now).1
         = Except.error e) := by
  refine ⟨?_, ?_, ?_, ?_, ?_, ?_, ?_⟩
  · intro api envToken pid isTest path tok now m t cs comps fs cbs e
      h1 h2 h3 h4 h5 h6 hw
    refine ⟨_, build_pdf_ok_intro api envToken pid isTest path tok now m t cs
      comps fs cbs h1 h2 h3 h4 h5 h6, ?_⟩
    refine List.mem_append_left _ (List.mem_append_left _
      (List.mem_append_right _ ?_))
    have hwsec : (render_wiki_section api pid).2
        = [Block.heading 2 "4. Wiki", Block.heading 3 "Error",
           Block.para ("Could not fetch wiki: " ++ e)] := by
      simp [render_wiki_section, fetch_wiki_pages, hw]
    rw [hwsec]
    simp
  · intro api envToken pid isTest path tok now m t cs comps fs cbs pages p e
      h1 h2 h3 h4 h5 h6 hw hp hcont
    refine ⟨_, build_pdf_ok_intro api envToken pid isTest path tok now m t cs
      comps fs cbs h1 h2 h3 h4 h5 h6, ?_⟩
    have hpb : Block.para "No content returned or unauthorized access"
        ∈ (render_wiki_page api p).2 := by
      simp [render_wiki_page, fetch_wiki_content_by_id, hcont, wiki_content_block]
    cases pages with
    | nil => exact absurd hp (List.not_mem_nil p)
    | cons q qs =>
        refine List.mem_append_left _ (List.mem_append_left _
          (List.mem_append_right _ ?_))
        have hwsec : (render_wiki_section api pid).2
            = Block.heading 2 "4. Wiki"
              :: (q :: qs).flatMap (fun pg => (render_wiki_page api pg).2) := by
          simp [render_wiki_section, fetch_wiki_pages, hw]
        rw [hwsec]
        exact List.mem_cons_of_mem _ (List.mem_flatMap.mpr ⟨p, hp, hpb⟩)
  · intro api envToken pid isTest path tok now e h
    simp [build_pdf, fetch_project_metadata, h]
  · intro api envToken pid isTest path tok now m e h1 h2
    simp [build_pdf, fetch_project_metadata, fetch_contributors, h1, h2]
  · intro api envToken pid isTest path tok now m cs e h1 h2 h3
    simp [build_pdf, fetch_project_metadata, fetch_contributors,
      fetch_components, h1, h2, h3]
  · intro api envToken pid isTest path tok now m t cs comps e h1 h2 h3 h4 h5
    simp [build_pdf, fetch_project_metadata, fetch_contributors,
      fetch_components, h1, h2, h3, h4, h5]
  · intro api envToken pid isTest path tok now m t cs comps fs h1 h2 h3 h4 h5 hfail
    obtain ⟨e, he⟩ := render_components_err api comps hfail
    exact ⟨e, by simp [build_pdf, fetch_project_metadata, fetch_contributors,
      fetch_components, h1, h2, h3, h4, h5, he]⟩

/-- Witness for C4: the concrete export whose wiki list fetch raises
still completes (the failure is contained). -/
theorem wiki_only_caught_failure_path_witness :
    (build_pdf cApi "envtok" "kzc68" false none none none "TS").1.isOk = true := by
  obtain ⟨d, hd, _⟩ := wiki_only_caught_failure_path.1 cApi "envtok" "kzc68" false
    none none "TS" cMeta "Demo Project"
    [{ full_name := "Ada", bibliographic := some true, email := none }]
    [] (claimLeaves cEntries []) [] "boom"
    rfl rfl rfl rfl (cApi_files_eval "kzc68") rfl rfl
  rw [hd]
  rfl
